import Mathlib

/-!
Verification development for the NDI tracker driver
(`sksurgerynditracker/nditracker.py`).

The driver is shallowly embedded: the mutable `NDITracker` object becomes an
explicit record that every operation threads through; calls into the external
`ndicapy` collaborator library (and the `ping` subprocess and host clock)
are modelled by an `Oracle` of response functions, and every outward call is
recorded in an effect trace.  Oracle reads that depend on device state are
indexed by the number of effects emitted so far in the current public call,
so a deterministic oracle can describe any device behaviour.  Fallible
operations return an `Except` of the Python exception kinds the source
raises.  String literals from the source are transcribed without quote
characters.  Where the source would crash the host process on a `None`
value (formatting a missing port handle, writing `None` into the numpy
array), the embedding is made total with an explicitly named artefact
(`hex2opt`, `cellOfHandle`); theorems about those paths carry the
hypothesis that the value is present, matching the states the driver
actually reaches.
-/

/-- A cell of the numpy result array: either the not-a-number sentinel the
array is prefilled with, or a written numeric value. -/
inductive Cell where
  | nan : Cell
  | val : Int → Cell
deriving DecidableEq, Repr

/-- A tool description: a rom file path (vega, polaris, dummy) or a physical
port label (aurora, stored as the number the configuration supplies). -/
inductive Desc where
  | file : String → Desc
  | port : Nat → Desc
deriving DecidableEq, Repr

/-- Reply of `ndiGetBXTransform` / `ndiGetGXTransform`: the MISSING or
DISABLED marker strings, or an 8-element pose
(x, y, z, four orientation components, quality). -/
inductive TransformReply where
  | missing : TransformReply
  | disabled : TransformReply
  | ok : Int → Int → Int → Int → Int → Int → Int → Int → TransformReply
deriving DecidableEq, Repr

/-- One outward call made by the driver: transport opens and closes, raw
commands, tool-definition upload, version query and frame reads. -/
inductive Eff where
  | ping : Option String → Eff
  | openNetwork : Option String → Option Int → Eff
  | devName : Option Int → Eff
  | probe : String → Eff
  | openSerial : String → Eff
  | cmd : String → Eff
  | closeSerial : Eff
  | closeNetwork : Eff
  | pvwr : Nat → Desc → Eff
  | ver : Eff
  | getBxFrame : Option String → Eff
  | getBxTransform : Option String → Eff
  | getGxFrame : Option String → Eff
  | getGxTransform : Option String → Eff
deriving DecidableEq, Repr

/-- The exception kinds the source raises: `KeyError` / `ValueError` for
configuration, `IOError` for connection and protocol failures, and the
`UnboundLocalError` a Python `NameError` path produces. -/
inductive Err where
  | keyError : String → Err
  | valueError : String → Err
  | ioError : String → Err
  | nameError : Err
deriving DecidableEq, Repr

/-- One entry of `self.tool_descriptors`: the description recorded at
configuration time, and the port-handle fields filled in later. -/
structure ToolDescriptor where
  description : Desc
  portHandle : Option Nat
  cstrPortHandle : Option String
deriving DecidableEq, Repr

/-- The configuration dictionary, projected onto the keys the driver reads;
`none` models an absent key. -/
structure Configuration where
  tracker_type : Option String
  ip_address : Option String
  port : Option Int
  romfiles : Option (List String)
  serial_port : Option Int
  number_of_ports_to_probe : Option Nat
  ports_to_use : Option (List Nat)
deriving DecidableEq, Repr

/-- The mutable attributes of the `NDITracker` instance; `device = none`
models both `None` and a falsy handle. -/
structure NDITracker where
  device : Option Nat
  tool_descriptors : List ToolDescriptor
  tracker_type : Option String
  ip_address : Option String
  port : Option Int
  serial_port : Option Int
  ports_to_probe : Option Nat
  device_firmware_version : Option String
  use_bx_transforms : Option Bool
  state : Option String
deriving DecidableEq, Repr

/-- The freshly constructed instance (`__init__`). -/
def NDITracker.mkNew : NDITracker :=
  { device := none
    tool_descriptors := []
    tracker_type := none
    ip_address := none
    port := none
    serial_port := none
    ports_to_probe := none
    device_firmware_version := none
    use_bx_transforms := none
    state := none }

/-- Responses of the external collaborators (`ndicapy`, the ping subprocess
and the host clock).  Stateful reads are indexed by the number of effects
emitted so far in the current public call. -/
structure Oracle where
  pingRes : Option String → Int
  openNetworkRes : Option String → Option Int → Option Nat
  devNameRes : Option Int → String
  probeRes : String → Int
  openSerialRes : String → Option Nat
  errReg : Nat → Int
  errorString : Int → String
  phsrCount : Nat → Nat
  freeHandleRes : Nat → Nat
  newHandle : Nat → Nat
  verReply : Nat → String
  bxFrame : Option String → Int
  bxTransform : Option String → TransformReply
  gxFrame : Option String → Int
  gxTransform : Option String → TransformReply
  time : Int

/-- Result of one stateful driver operation: the outcome (or raised
exception), the updated instance and the effects emitted. -/
structure Step where
  res : Except Err Unit
  st : NDITracker
  trace : List Eff

/-- Run `f` after `a` when `a` succeeded, accumulating the trace; `k` is the
effect count at the start of `a`. -/
def Step.seq (a : Step) (k : Nat) (f : NDITracker → Nat → Step) : Step :=
  match a.res with
  | Except.error _ => a
  | Except.ok _ =>
    let b := f a.st (k + a.trace.length)
    { res := b.res, st := b.st, trace := a.trace ++ b.trace }

/-- Run a pure state update after `a` when `a` succeeded. -/
def Step.seqPure (a : Step) (f : NDITracker → NDITracker) : Step :=
  match a.res with
  | Except.error _ => a
  | Except.ok _ => { a with st := f a.st }

/-- The `NDI_OKAY` status constant of `ndicapy`. -/
def NDI_OKAY : Int := 0

/-- The `NDI_115200` baud constant of `ndicapy`. -/
def NDI_115200 : Nat := 5

/-- The `NDI_8N1` framing constant of `ndicapy`. -/
def NDI_8N1 : Nat := 0

/-- The `NDI_NOHANDSHAKE` constant of `ndicapy`. -/
def NDI_NOHANDSHAKE : Nat := 0

/-- Python `{0:02x}` formatting of a natural number. -/
def hex2 (n : Nat) : String :=
  let s := String.mk (Nat.toDigits 16 n)
  if s.length < 2 then "0" ++ s else s

/-- Formatting of an optional port handle; the `none` case is a host crash
in the source and is outside the modelled domain. -/
def hex2opt (h : Option Nat) : String :=
  match h with
  | some n => hex2 n
  | none => ""

/-- Python `{:03d}` formatting. -/
def pad3 (n : Nat) : String :=
  if n < 10 then "00" ++ toString n
  else if n < 100 then "0" ++ toString n
  else toString n

/-- Writing an optional handle into the numpy array; the `none` case is a
host crash in the source and is outside the modelled domain. -/
def cellOfHandle (h : Option Nat) : Cell :=
  match h with
  | some n => Cell.val n
  | none => Cell.nan

/-- Build the tool descriptor appended for one rom file. -/
def romTool (f : String) : ToolDescriptor :=
  { description := Desc.file f, portHandle := none, cstrPortHandle := none }

/-- Build the tool descriptor appended for one aurora physical port. -/
def portTool (p : Nat) : ToolDescriptor :=
  { description := Desc.port p, portHandle := some p,
    cstrPortHandle := some (toString p) }

/-- Embedding of `_config_vega`: requires an ip address, defaults the port
to 8765, requires a rom file list and appends one descriptor per file. -/
def config_vega (s : NDITracker) (c : Configuration) :
    Except Err Unit × NDITracker :=
  match c.ip_address with
  | none =>
    (Except.error (Err.keyError "Configuration for vega must contain ip address"), s)
  | some ip =>
    let s1 := { s with ip_address := some ip, port := some (c.port.getD 8765) }
    match c.romfiles with
    | none =>
      (Except.error (Err.keyError "Configuration for vega and polaris must contain a list of romfiles"), s1)
    | some files =>
      (Except.ok (),
       { s1 with tool_descriptors := s1.tool_descriptors ++ files.map romTool })

/-- Embedding of `_config_polaris`: requires a rom file list, appends one
descriptor per file, defaults the serial port to -1 (auto probe) and the
probe count to 20. -/
def config_polaris (s : NDITracker) (c : Configuration) :
    Except Err Unit × NDITracker :=
  match c.romfiles with
  | none =>
    (Except.error (Err.keyError "Configuration for vega and polaris must contain a list of romfiles"), s)
  | some files =>
    let s1 := { s with tool_descriptors := s.tool_descriptors ++ files.map romTool }
    (Except.ok (),
     { s1 with serial_port := some (c.serial_port.getD (-1)),
               ports_to_probe := some (c.number_of_ports_to_probe.getD 20) })

/-- Embedding of `_config_aurora`: requires a list of physical ports,
appends one descriptor per port (handle bound directly from the label), and
applies the same serial defaults as polaris. -/
def config_aurora (s : NDITracker) (c : Configuration) :
    Except Err Unit × NDITracker :=
  match c.ports_to_use with
  | none =>
    (Except.error (Err.keyError "Configuration for aurora must contain a list of ports to use"), s)
  | some ports =>
    let s1 := { s with tool_descriptors := s.tool_descriptors ++ ports.map portTool }
    (Except.ok (),
     { s1 with serial_port := some (c.serial_port.getD (-1)),
               ports_to_probe := some (c.number_of_ports_to_probe.getD 20) })

/-- Embedding of `_config_dummy`: an optional rom file list, appended when
present. -/
def config_dummy (s : NDITracker) (c : Configuration) :
    Except Err Unit × NDITracker :=
  match c.romfiles with
  | none => (Except.ok (), s)
  | some files =>
    (Except.ok (), { s with tool_descriptors := s.tool_descriptors ++ files.map romTool })

/-- Embedding of `_configure`: requires a tracker type tag, rejects
unrecognised tags, then dispatches to the variant configuration. -/
def configure (s : NDITracker) (c : Configuration) :
    Except Err Unit × NDITracker :=
  match c.tracker_type with
  | none => (Except.error (Err.keyError "Configuration must contain Tracker type"), s)
  | some t =>
    if t = "vega" ∨ t = "polaris" ∨ t = "aurora" ∨ t = "dummy" then
      let s1 := { s with tracker_type := some t }
      if t = "vega" then config_vega s1 c
      else if t = "polaris" then config_polaris s1 c
      else if t = "aurora" then config_aurora s1 c
      else config_dummy s1 c
    else
      (Except.error (Err.valueError "Supported trackers are vega, aurora, polaris, and dummy"), s)

/-- Embedding of `_check_for_errors`: read the error register (at effect
count `k`); on a non-OK value, close the device with the serial close call
and raise an `IOError` carrying the context message and the device error
text.  The instance attributes are untouched (the source does not clear
`self.device` here). -/
def check_for_errors (o : Oracle) (message : String) (k : Nat) :
    Except Err Unit × List Eff :=
  let errnum := o.errReg k
  if errnum = NDI_OKAY then (Except.ok (), [])
  else
    (Except.error (Err.ioError
      ("error when " ++ message ++ ". the error was: " ++ o.errorString errnum)),
     [Eff.closeSerial])

/-- Embedding of `stop_tracking`: send TSTOP, check for errors, and on
success set the state to ready. -/
def stop_tracking (o : Oracle) (s : NDITracker) (k : Nat) : Step :=
  match check_for_errors o "stopping tracking." (k + 1) with
  | (Except.ok _, _) =>
    { res := Except.ok (), st := { s with state := some "ready" },
      trace := [Eff.cmd "TSTOP:"] }
  | (Except.error e, ce) =>
    { res := Except.error e, st := s, trace := Eff.cmd "TSTOP:" :: ce }

/-- Embedding of `start_tracking`: send TSTART, check for errors, and on
success set the state to tracking. -/
def start_tracking (o : Oracle) (s : NDITracker) (k : Nat) : Step :=
  match check_for_errors o "starting tracking." (k + 1) with
  | (Except.ok _, _) =>
    { res := Except.ok (), st := { s with state := some "tracking" },
      trace := [Eff.cmd "TSTART:"] }
  | (Except.error e, ce) =>
    { res := Except.error e, st := s, trace := Eff.cmd "TSTART:" :: ce }

/-- Embedding of `close`: raise a `ValueError` when no device is held;
stop tracking first when the state is tracking; then close the network
transport for vega or the serial transport for aurora and polaris, and
clear the device attribute. -/
def close (o : Oracle) (s : NDITracker) (k : Nat) : Step :=
  match s.device with
  | none =>
    { res := Except.error (Err.valueError "close called with no NDI device"),
      st := s, trace := [] }
  | some _ =>
    let a : Step :=
      if s.state = some "tracking" then stop_tracking o s k
      else { res := Except.ok (), st := s, trace := [] }
    match a.res with
    | Except.error _ => a
    | Except.ok _ =>
      let t1 : List Eff :=
        if a.st.tracker_type = some "vega" then [Eff.closeNetwork] else []
      let t2 : List Eff :=
        if a.st.tracker_type = some "aurora" ∨ a.st.tracker_type = some "polaris"
        then [Eff.closeSerial] else []
      { res := Except.ok (), st := { a.st with device := none },
        trace := a.trace ++ t1 ++ t2 }

/-- The free-stale-handles loop of `_read_sroms_from_file`, over
`range number_of_tools`: per index, read the pending handle, send PHF and
check for errors (the context message formats the loop index). -/
def freeLoop (o : Oracle) (k : Nat) : Nat → Nat → Except Err Unit × List Eff
  | 0, _ => (Except.ok (), [])
  | r + 1, i =>
    let h := o.freeHandleRes i
    match check_for_errors o ("freeing port handle " ++ hex2 i ++ ".") (k + 1) with
    | (Except.error e, ce) =>
      (Except.error e, Eff.cmd ("PHF:" ++ hex2 h) :: ce)
    | (Except.ok _, _) =>
      let rest := freeLoop o (k + 1) r (i + 1)
      (rest.1, Eff.cmd ("PHF:" ++ hex2 h) :: rest.2)

/-- The allocate-and-load loop of `_read_sroms_from_file`: per tool, send
PHRQ, read the fresh handle, record it on the descriptor, check for errors,
upload the rom file to the handle, and check again. -/
def loadLoop (o : Oracle) (k : Nat) :
    List ToolDescriptor → Except Err Unit × List ToolDescriptor × List Eff
  | [] => (Except.ok (), [], [])
  | t :: ts =>
    let h := o.newHandle (k + 1)
    let t1 := { t with portHandle := some h, cstrPortHandle := some (toString h) }
    match check_for_errors o
        ("getting srom file port handle " ++ toString h ++ ".") (k + 1) with
    | (Except.error e, ce) =>
      (Except.error e, t1 :: ts, Eff.cmd "PHRQ:*********1****" :: ce)
    | (Except.ok _, _) =>
      match check_for_errors o
          ("setting srom file port handle " ++ toString h ++ ".") (k + 2) with
      | (Except.error e, ce) =>
        (Except.error e, t1 :: ts,
         Eff.cmd "PHRQ:*********1****" :: Eff.pvwr h t1.description :: ce)
      | (Except.ok _, _) =>
        let rest := loadLoop o (k + 2) ts
        (rest.1, t1 :: rest.2.1,
         Eff.cmd "PHRQ:*********1****" :: Eff.pvwr h t1.description :: rest.2.2)

/-- Embedding of `_read_sroms_from_file`: device precondition, stop
tracking, free stale handles, then allocate a handle and upload the rom
file for every tool, finishing with a second PHSR:01. -/
def read_sroms_from_file (o : Oracle) (s : NDITracker) (k : Nat) : Step :=
  match s.device with
  | none =>
    { res := Except.error (Err.valueError "read srom called with no NDI device"),
      st := s, trace := [] }
  | some _ =>
    let a := stop_tracking o s k
    match a.res with
    | Except.error _ => a
    | Except.ok _ =>
      let k1 := k + a.trace.length
      let n := o.phsrCount (k1 + 1)
      let f := freeLoop o (k1 + 1) n 0
      match f.1 with
      | Except.error e =>
        { res := Except.error e, st := a.st,
          trace := a.trace ++ Eff.cmd "PHSR:01" :: f.2 }
      | Except.ok _ =>
        let k2 := k1 + 1 + f.2.length
        let l := loadLoop o k2 a.st.tool_descriptors
        let s2 := { a.st with tool_descriptors := l.2.1 }
        match l.1 with
        | Except.error e =>
          { res := Except.error e, st := s2,
            trace := a.trace ++ Eff.cmd "PHSR:01" :: f.2 ++ l.2.2 }
        | Except.ok _ =>
          { res := Except.ok (), st := s2,
            trace := a.trace ++ Eff.cmd "PHSR:01" :: (f.2 ++ l.2.2 ++ [Eff.cmd "PHSR:01"]) }

/-- The per-tool loop of `_initialise_ports`: send PINIT for each tool's
handle and check for errors (hex-formatted context message). -/
def initLoop (o : Oracle) (k : Nat) :
    List ToolDescriptor → Except Err Unit × List Eff
  | [] => (Except.ok (), [])
  | t :: ts =>
    let hs := hex2opt t.portHandle
    match check_for_errors o ("Initialising port handle " ++ hs ++ ".") (k + 1) with
    | (Except.error e, ce) => (Except.error e, Eff.cmd ("PINIT:" ++ hs) :: ce)
    | (Except.ok _, _) =>
      let rest := initLoop o (k + 1) ts
      (rest.1, Eff.cmd ("PINIT:" ++ hs) :: rest.2)

/-- Embedding of `_initialise_ports`: device precondition, PHSR:02, then
the per-tool PINIT loop. -/
def initialise_ports (o : Oracle) (s : NDITracker) (k : Nat) : Step :=
  match s.device with
  | none =>
    { res := Except.error (Err.valueError "init ports called with no NDI device"),
      st := s, trace := [] }
  | some _ =>
    let l := initLoop o (k + 1) s.tool_descriptors
    { res := l.1, st := s, trace := Eff.cmd "PHSR:02" :: l.2 }

/-- The per-tool loop of `_enable_tools`: send PENA in dynamic mode for each
tool's handle and check for errors (decimal-formatted context message). -/
def enableLoop (o : Oracle) (k : Nat) :
    List ToolDescriptor → Except Err Unit × List Eff
  | [] => (Except.ok (), [])
  | t :: ts =>
    let h := t.portHandle
    match check_for_errors o
        ("Enabling port handle " ++ toString (h.getD 0) ++ ".") (k + 1) with
    | (Except.error e, ce) =>
      (Except.error e, Eff.cmd ("PENA:" ++ hex2opt h ++ "D") :: ce)
    | (Except.ok _, _) =>
      let rest := enableLoop o (k + 1) ts
      (rest.1, Eff.cmd ("PENA:" ++ hex2opt h ++ "D") :: rest.2)

/-- Embedding of `_enable_tools`: device precondition, PHSR:03, then the
per-tool PENA loop. -/
def enable_tools (o : Oracle) (s : NDITracker) (k : Nat) : Step :=
  match s.device with
  | none =>
    { res := Except.error (Err.valueError "enable tools called with no NDI device"),
      st := s, trace := [] }
  | some _ =>
    let l := enableLoop o (k + 1) s.tool_descriptors
    { res := l.1, st := s, trace := Eff.cmd "PHSR:03" :: l.2 }

/-- Embedding of `_connect_network`: ping the address first; a failing ping
raises without opening; a falsy open result raises a distinct error;
otherwise send INIT and check for errors. -/
def connect_network (o : Oracle) (s : NDITracker) (k : Nat) : Step :=
  if o.pingRes s.ip_address = 0 then
    match o.openNetworkRes s.ip_address s.port with
    | none =>
      { res := Except.error (Err.ioError
          ("Could not connect to network NDI device at " ++ s.ip_address.getD "")),
        st := { s with device := none },
        trace := [Eff.ping s.ip_address, Eff.openNetwork s.ip_address s.port] }
    | some dev =>
      let s1 := { s with device := some dev }
      let c := check_for_errors o "Sending INIT command" (k + 3)
      { res := c.1, st := s1,
        trace := [Eff.ping s.ip_address, Eff.openNetwork s.ip_address s.port,
                  Eff.cmd "INIT:"] ++ c.2 }
  else
    { res := Except.error (Err.ioError
        ("Could not find a device at " ++ s.ip_address.getD "")),
      st := s, trace := [Eff.ping s.ip_address] }

/-- The auto-probe loop of `_connect_serial` over `range ports_to_probe`:
per index, read the device name (an empty name is falsy and is skipped
without probing), probe a non-empty name, and break on `NDI_OKAY`.  The
returned options are the last values bound to the Python locals `name` and
`result`; `none` models a variable the loop never assigned. -/
def probeLoop (o : Oracle) : Nat → Nat →
    Option String × Option Int × List Eff
  | 0, _ => (none, none, [])
  | r + 1, i =>
    let nm := o.devNameRes (some (Int.ofNat i))
    if nm = "" then
      let rest := probeLoop o r (i + 1)
      (rest.1 <|> some nm, rest.2.1, Eff.devName (some (Int.ofNat i)) :: rest.2.2)
    else
      let pr := o.probeRes nm
      if pr = NDI_OKAY then
        (some nm, some pr, [Eff.devName (some (Int.ofNat i)), Eff.probe nm])
      else
        let rest := probeLoop o r (i + 1)
        (rest.1 <|> some nm, rest.2.1 <|> some pr,
         Eff.devName (some (Int.ofNat i)) :: Eff.probe nm :: rest.2.2)

/-- The remediation-hint message of `_connect_serial`, formatted with the
configured probe count. -/
def serialHints (portsToProbe : Option Nat) : String :=
  "Could not find any NDI device in " ++
  (match portsToProbe with | some n => toString n | none => "None") ++
  " serial port candidates checked. Please check the following:\n" ++
  "\t1) Is an NDI device connected to your computer?\n" ++
  "\t2) Is the NDI device switched on?\n" ++
  "\t3) Do you have sufficient privilege to connect to " ++
  "the device? (e.g. on Linux are you part of the dialout group?)"

/-- Embedding of `_connect_serial`: probe only the explicit port when one is
configured, otherwise run the auto-probe loop; referencing the never-bound
`result` local raises Python's unbound-local error; a non-OK result raises
the remediation-hint `IOError`; then open, send INIT, check, and send COMM
with the fixed communication parameters. -/
def connect_serial (o : Oracle) (s : NDITracker) (k : Nat) : Step :=
  let probed : Option String × Option Int × List Eff :=
    if s.serial_port = some (-1) then
      probeLoop o (s.ports_to_probe.getD 0) 0
    else
      let nm := o.devNameRes s.serial_port
      (some nm, some (o.probeRes nm),
       [Eff.devName s.serial_port, Eff.probe nm])
  match probed.2.1 with
  | none => { res := Except.error Err.nameError, st := s, trace := probed.2.2 }
  | some r =>
    if r ≠ NDI_OKAY then
      { res := Except.error (Err.ioError (serialHints s.ports_to_probe)),
        st := s, trace := probed.2.2 }
    else
      let nm := probed.1.getD ""
      match o.openSerialRes nm with
      | none =>
        { res := Except.error (Err.ioError
            ("Could not connect to serial NDI device at " ++ nm)),
          st := { s with device := none },
          trace := probed.2.2 ++ [Eff.openSerial nm] }
      | some dev =>
        let s1 := { s with device := some dev }
        let kNow := k + probed.2.2.length + 2
        let c := check_for_errors o "Sending INIT command" kNow
        match c.1 with
        | Except.error e =>
          { res := Except.error e, st := s1,
            trace := probed.2.2 ++ [Eff.openSerial nm, Eff.cmd "INIT:"] ++ c.2 }
        | Except.ok _ =>
          { res := Except.ok (), st := s1,
            trace := probed.2.2 ++ [Eff.openSerial nm, Eff.cmd "INIT:"] ++
              [Eff.cmd ("COMM:" ++ toString NDI_115200 ++ pad3 NDI_8N1 ++
                        toString NDI_NOHANDSHAKE)] }

/-- Helper for `splitChar`: the accumulator holds the current field in
reverse. -/
def splitCharAux (c : Char) : List Char → List Char → List String
  | [], acc => [String.mk acc.reverse]
  | x :: xs, acc =>
    if x = c then String.mk acc.reverse :: splitCharAux c xs []
    else splitCharAux c xs (x :: acc)

/-- Python `str.split` with a one-character separator, implemented over the
character list so that it computes by kernel reduction. -/
def splitChar (c : Char) (s : String) : List String := splitCharAux c s.data []

/-- Python `str.startswith`, implemented over the character lists. -/
def strStartsWith (s p : String) : Bool := p.data.isPrefixOf s.data

/-- Embedding of `_connect_vega`: network connect, then the rom, init and
enable phases in order. -/
def connect_vega (o : Oracle) (s : NDITracker) (k : Nat) : Step :=
  (((connect_network o s k).seq k (read_sroms_from_file o)).seq k
    (initialise_ports o)).seq k (enable_tools o)

/-- Embedding of `_connect_polaris`: serial connect, then the rom, init and
enable phases in order. -/
def connect_polaris (o : Oracle) (s : NDITracker) (k : Nat) : Step :=
  (((connect_serial o s k).seq k (read_sroms_from_file o)).seq k
    (initialise_ports o)).seq k (enable_tools o)

/-- Embedding of `_connect_aurora`: serial connect, then the init and enable
phases (no rom upload). -/
def connect_aurora (o : Oracle) (s : NDITracker) (k : Nat) : Step :=
  ((connect_serial o s k).seq k (initialise_ports o)).seq k (enable_tools o)

/-- Embedding of `_get_firmware_version`: default the version to the
unknown sentinel; for a real device query VER and take the last line
starting with the Freeze Tag field, split on the colon, element one. -/
def get_firmware_version (o : Oracle) (s : NDITracker) (k : Nat) : Step :=
  if s.tracker_type ≠ some "dummy" then
    let fv := (splitChar (Char.ofNat 10) (o.verReply k)).foldl
      (fun acc line =>
        if strStartsWith line "Freeze Tag:" then (splitChar (Char.ofNat 58) line).getD 1 ""
        else acc)
      "unknown 00.0"
    { res := Except.ok (), st := { s with device_firmware_version := some fv },
      trace := [Eff.ver] }
  else
    { res := Except.ok (),
      st := { s with device_firmware_version := some "unknown 00.0" },
      trace := [] }

/-- Embedding of `_set_use_bx_transforms`: default to the binary protocol,
falling back to text frames exactly for the one legacy firmware string. -/
def set_use_bx_transforms (s : NDITracker) : NDITracker :=
  let s1 := { s with use_bx_transforms := some true }
  if s1.device_firmware_version = some " AURORA Rev 007" then
    { s1 with use_bx_transforms := some false }
  else s1

/-- Embedding of `connect`: configure, dispatch on the tracker type (the
dummy variant just marks a truthy device), then query the firmware version
and derive the frame-protocol flag. -/
def connect (o : Oracle) (s : NDITracker) (c : Configuration) : Step :=
  match configure s c with
  | (Except.error e, s1) => { res := Except.error e, st := s1, trace := [] }
  | (Except.ok _, s1) =>
    let a : Step :=
      if s1.tracker_type = some "vega" then connect_vega o s1 0
      else if s1.tracker_type = some "aurora" then connect_aurora o s1 0
      else if s1.tracker_type = some "polaris" then connect_polaris o s1 0
      else if s1.tracker_type = some "dummy" then
        { res := Except.ok (), st := { s1 with device := some 1 }, trace := [] }
      else { res := Except.ok (), st := s1, trace := [] }
    (a.seq 0 (get_firmware_version o)).seqPure set_use_bx_transforms

/-- The pose block written into columns 3 to 10: untouched sentinels for a
MISSING or DISABLED reply, the eight reply values otherwise. -/
def poseBlock : TransformReply → List Cell
  | TransformReply.missing => List.replicate 8 Cell.nan
  | TransformReply.disabled => List.replicate 8 Cell.nan
  | TransformReply.ok x y z a b c d q =>
    [Cell.val x, Cell.val y, Cell.val z, Cell.val a, Cell.val b, Cell.val c,
     Cell.val d, Cell.val q]

/-- One row of the BX frame table for one tool: handle, host timestamp,
device frame number, then the pose block. -/
def bxRow (o : Oracle) (ts : Int) (t : ToolDescriptor) : List Cell :=
  cellOfHandle t.portHandle :: Cell.val ts ::
    Cell.val (o.bxFrame t.cstrPortHandle) :: poseBlock (o.bxTransform t.cstrPortHandle)

/-- One row of the GX frame table for one tool. -/
def gxRow (o : Oracle) (ts : Int) (t : ToolDescriptor) : List Cell :=
  cellOfHandle t.portHandle :: Cell.val ts ::
    Cell.val (o.gxFrame t.cstrPortHandle) :: poseBlock (o.gxTransform t.cstrPortHandle)

/-- One row of the dummy frame table: only column 1 (the host timestamp) is
written, every other cell keeps the prefilled sentinel. -/
def dummyRow (ts : Int) : List Cell :=
  Cell.nan :: Cell.val ts :: List.replicate 9 Cell.nan

/-- Embedding of `_get_frame_bx`: a `tool count × 11` array prefilled with
the sentinel; for a real device send BX:0801 and fill each tool's row from
the binary reads; for the dummy write only the timestamp column and touch
no collaborator. -/
def get_frame_bx (o : Oracle) (s : NDITracker) : List (List Cell) × List Eff :=
  if s.tracker_type ≠ some "dummy" then
    (s.tool_descriptors.map (fun t => bxRow o o.time t),
     Eff.cmd "BX:0801" ::
       (s.tool_descriptors.map (fun t =>
         [Eff.getBxFrame t.cstrPortHandle, Eff.getBxTransform t.cstrPortHandle])).flatten)
  else
    (s.tool_descriptors.map (fun _ => dummyRow o.time), [])

/-- Embedding of `_get_frame_gx`. -/
def get_frame_gx (o : Oracle) (s : NDITracker) : List (List Cell) × List Eff :=
  if s.tracker_type ≠ some "dummy" then
    (s.tool_descriptors.map (fun t => gxRow o o.time t),
     Eff.cmd "GX:0801" ::
       (s.tool_descriptors.map (fun t =>
         [Eff.getGxFrame t.cstrPortHandle, Eff.getGxTransform t.cstrPortHandle])).flatten)
  else
    (s.tool_descriptors.map (fun _ => dummyRow o.time), [])

/-- Embedding of `get_frame`: the binary variant when the flag is truthy,
the text variant otherwise. -/
def get_frame (o : Oracle) (s : NDITracker) : List (List Cell) × List Eff :=
  if s.use_bx_transforms = some true then get_frame_bx o s else get_frame_gx o s

/-- Embedding of `get_tool_descriptions`: one (index, description) row per
tool, in order. -/
def get_tool_descriptions (s : NDITracker) : List (Nat × Desc) :=
  s.tool_descriptors.enum.map (fun p => (p.1, p.2.description))

/-- The lifecycle states of the natural-language data model. -/
inductive TrackingState where
  | disconnected : TrackingState
  | connected : TrackingState
  | ready : TrackingState
  | tracking : TrackingState
deriving DecidableEq, Repr

/-- The abstraction from the instance attributes to the data-model lifecycle
state: the source marks disconnection only by clearing `device`, and its
`_state` attribute distinguishes tracking from ready once connected. -/
def lifecycleState (s : NDITracker) : TrackingState :=
  match s.device with
  | none => TrackingState.disconnected
  | some _ =>
    if s.state = some "tracking" then TrackingState.tracking
    else if s.state = some "ready" then TrackingState.ready
    else TrackingState.connected

/-- The length of a pose block is 8 for every reply. -/
theorem poseBlock_length (r : TransformReply) : (poseBlock r).length = 8 := by
  cases r <;> simp [poseBlock]

/-- A BX row always has 11 cells. -/
theorem bxRow_length (o : Oracle) (ts : Int) (t : ToolDescriptor) :
    (bxRow o ts t).length = 11 := by
  simp [bxRow, poseBlock_length]

/-- A GX row always has 11 cells. -/
theorem gxRow_length (o : Oracle) (ts : Int) (t : ToolDescriptor) :
    (gxRow o ts t).length = 11 := by
  simp [gxRow, poseBlock_length]

/-- A dummy row always has 11 cells. -/
theorem dummyRow_length (ts : Int) : (dummyRow ts).length = 11 := by
  simp [dummyRow]

/-- An all-OK oracle used by the concrete instantiations below. -/
def oracleOk : Oracle :=
  { pingRes := fun _ => 0
    openNetworkRes := fun _ _ => some 2
    devNameRes := fun _ => "portA"
    probeRes := fun _ => 0
    openSerialRes := fun _ => some 3
    errReg := fun _ => 0
    errorString := fun _ => "etext"
    phsrCount := fun _ => 0
    freeHandleRes := fun _ => 0
    newHandle := fun _ => 6
    verReply := fun _ => ""
    bxFrame := fun _ => 9
    bxTransform := fun _ => TransformReply.missing
    gxFrame := fun _ => 9
    gxTransform := fun _ => TransformReply.ok 1 2 3 4 5 6 7 8
    time := 42 }

/-- An oracle whose error register always reads a non-OK value. -/
def oracleErr : Oracle := { oracleOk with errReg := fun _ => 1 }

/-- An oracle on a machine with no serial ports: every device name read
comes back empty. -/
def oracleNoPorts : Oracle := { oracleOk with devNameRes := fun _ => "" }

/-- A tool descriptor as it looks after the port set-up phases. -/
def vegaTool : ToolDescriptor :=
  { description := Desc.file "t.rom", portHandle := some 6,
    cstrPortHandle := some "6" }

/-- A connected vega instance with one set-up tool, ready to track. -/
def vegaState : NDITracker :=
  { NDITracker.mkNew with
    device := some 2
    tracker_type := some "vega"
    ip_address := some "10.0.0.1"
    port := some 8765
    use_bx_transforms := some true
    state := some "ready"
    tool_descriptors := [vegaTool] }

/-- The same vega instance while tracking. -/
def vegaTracking : NDITracker := { vegaState with state := some "tracking" }

/-- A connected dummy instance with two configured tools. -/
def dummyState : NDITracker :=
  { NDITracker.mkNew with
    device := some 1
    tracker_type := some "dummy"
    use_bx_transforms := some true
    tool_descriptors := [romTool "a.rom", romTool "b.rom"] }

/-- An instance configured for serial auto-probing over three candidates. -/
def serialAutoState : NDITracker :=
  { NDITracker.mkNew with
    tracker_type := some "polaris"
    serial_port := some (-1)
    ports_to_probe := some 3
    tool_descriptors := [romTool "t.rom"] }

/-- C1: a successful acquire returns a table with exactly one row per
configured tool, in configuration order, each row holding exactly 11 cells
in the fixed order: port handle, host timestamp, device frame number, then
the 8-element pose block (x, y, z, four orientation components, quality),
for every variant and both wire protocols. -/
theorem claim_c1_acquire_shape (o : Oracle) (s : NDITracker) :
    (get_frame o s).1.length = s.tool_descriptors.length ∧
    (∀ (i : Nat) (t : ToolDescriptor), s.tool_descriptors[i]? = some t →
      ∃ row, (get_frame o s).1[i]? = some row ∧ row.length = 11 ∧
        (s.tracker_type ≠ some "dummy" →
          (s.use_bx_transforms = some true →
            row = cellOfHandle t.portHandle :: Cell.val o.time ::
              Cell.val (o.bxFrame t.cstrPortHandle) ::
              poseBlock (o.bxTransform t.cstrPortHandle)) ∧
          (s.use_bx_transforms ≠ some true →
            row = cellOfHandle t.portHandle :: Cell.val o.time ::
              Cell.val (o.gxFrame t.cstrPortHandle) ::
              poseBlock (o.gxTransform t.cstrPortHandle))) ∧
        (s.tracker_type = some "dummy" → row = dummyRow o.time)) := by
  constructor
  · by_cases hb : s.use_bx_transforms = some true <;>
      by_cases hd : s.tracker_type = some "dummy" <;>
      simp [get_frame, get_frame_bx, get_frame_gx, hb, hd]
  · intro i t ht
    have hi : i < s.tool_descriptors.length := by
      by_contra hlt
      rw [List.getElem?_eq_none (Nat.le_of_not_lt hlt)] at ht
      exact Option.noConfusion ht
    by_cases hb : s.use_bx_transforms = some true <;>
      by_cases hd : s.tracker_type = some "dummy"
    · refine ⟨dummyRow o.time, ?_, dummyRow_length o.time, ?_, ?_⟩
      · simp [get_frame, get_frame_bx, hb, hd, List.getElem?_replicate, hi]
      · intro h; exact absurd hd h
      · intro _; rfl
    · refine ⟨bxRow o o.time t, ?_, bxRow_length o o.time t, ?_, ?_⟩
      · simp [get_frame, get_frame_bx, hb, hd, List.getElem?_map, ht, bxRow]
      · intro _; exact ⟨fun _ => rfl, fun h => absurd hb h⟩
      · intro h; exact absurd h hd
    · refine ⟨dummyRow o.time, ?_, dummyRow_length o.time, ?_, ?_⟩
      · simp [get_frame, get_frame_gx, hb, hd, List.getElem?_replicate, hi]
      · intro h; exact absurd hd h
      · intro _; rfl
    · refine ⟨gxRow o o.time t, ?_, gxRow_length o o.time t, ?_, ?_⟩
      · simp [get_frame, get_frame_gx, hb, hd, List.getElem?_map, ht, gxRow]
      · intro _; exact ⟨fun h => absurd h hb, fun _ => rfl⟩
      · intro h; exact absurd h hd

/-- Witness for C1 at a concrete connected vega instance with one tool. -/
theorem claim_c1_acquire_shape_witness :
    ∃ row, (get_frame oracleOk vegaState).1[0]? = some row ∧ row.length = 11 ∧
      (vegaState.tracker_type ≠ some "dummy" →
        (vegaState.use_bx_transforms = some true →
          row = cellOfHandle vegaTool.portHandle :: Cell.val oracleOk.time ::
            Cell.val (oracleOk.bxFrame vegaTool.cstrPortHandle) ::
            poseBlock (oracleOk.bxTransform vegaTool.cstrPortHandle)) ∧
        (vegaState.use_bx_transforms ≠ some true →
          row = cellOfHandle vegaTool.portHandle :: Cell.val oracleOk.time ::
            Cell.val (oracleOk.gxFrame vegaTool.cstrPortHandle) ::
            poseBlock (oracleOk.gxTransform vegaTool.cstrPortHandle))) ∧
      (vegaState.tracker_type = some "dummy" → row = dummyRow oracleOk.time) :=
  (claim_c1_acquire_shape oracleOk vegaState).2 0 vegaTool rfl

/-- Folding the Freeze Tag scan over lines none of which carry the field
leaves the initial value unchanged. -/
theorem freezeFold_no_match (l : List String) (init : String)
    (h : ∀ line ∈ l, ¬ strStartsWith line "Freeze Tag:") :
    l.foldl (fun acc line =>
      if strStartsWith line "Freeze Tag:" then (splitChar (Char.ofNat 58) line).getD 1 ""
      else acc) init = init := by
  induction l generalizing init with
  | nil => rfl
  | cons a as ih =>
    have ha := h a (List.mem_cons_self a as)
    simp only [List.foldl_cons, if_neg ha]
    exact ih init (fun x hx => h x (List.mem_cons_of_mem a hx))

/-- C2: the derived preference for text frames (the negation of
`_use_bx_transforms`) holds exactly for the one legacy firmware string
(with its leading space); every other version string, including the
unknown sentinel recorded when no Freeze Tag line is found, selects the
binary protocol. -/
theorem claim_c2_prefer_text_frames :
    (∀ (s : NDITracker) (v : String), s.device_firmware_version = some v →
      ((set_use_bx_transforms s).use_bx_transforms = some false ↔
        v = " AURORA Rev 007") ∧
      ((set_use_bx_transforms s).use_bx_transforms = some true ↔
        v ≠ " AURORA Rev 007")) ∧
    (∀ (o : Oracle) (s : NDITracker) (k : Nat),
      (∀ line ∈ splitChar (Char.ofNat 10) (o.verReply k),
        ¬ strStartsWith line "Freeze Tag:") →
      (get_firmware_version o s k).st.device_firmware_version =
        some "unknown 00.0") := by
  constructor
  · intro s v hv
    by_cases h : v = " AURORA Rev 007" <;>
      simp [set_use_bx_transforms, hv, h]
  · intro o s k hnone
    by_cases hd : s.tracker_type = some "dummy"
    · simp [get_firmware_version, hd]
    · have hd2 : s.tracker_type ≠ some "dummy" := hd
      unfold get_firmware_version
      rw [if_pos hd2]
      exact congrArg some (freezeFold_no_match _ _ hnone)

/-- Witness for C2: the legacy string turns the flag off, and a reply with
no Freeze Tag line leaves the sentinel version. -/
theorem claim_c2_prefer_text_frames_witness :
    (((set_use_bx_transforms
        { NDITracker.mkNew with device_firmware_version := some " AURORA Rev 007" }).use_bx_transforms
        = some false ↔ " AURORA Rev 007" = " AURORA Rev 007") ∧
     ((set_use_bx_transforms
        { NDITracker.mkNew with device_firmware_version := some " AURORA Rev 007" }).use_bx_transforms
        = some true ↔ " AURORA Rev 007" ≠ " AURORA Rev 007")) ∧
    (get_firmware_version oracleOk vegaState 0).st.device_firmware_version =
      some "unknown 00.0" :=
  ⟨claim_c2_prefer_text_frames.1
      { NDITracker.mkNew with device_firmware_version := some " AURORA Rev 007" }
      " AURORA Rev 007" rfl,
   claim_c2_prefer_text_frames.2 oracleOk vegaState 0 (by decide)⟩

/-- Characterisation of a successful `close` from a non-tracking state. -/
theorem close_not_tracking (o : Oracle) (s : NDITracker) (k : Nat) (d : Nat)
    (hd : s.device = some d) (htr : ¬ s.state = some "tracking") :
    close o s k =
      { res := Except.ok (), st := { s with device := none },
        trace :=
          (if s.tracker_type = some "vega" then [Eff.closeNetwork] else []) ++
          (if s.tracker_type = some "aurora" ∨ s.tracker_type = some "polaris"
           then [Eff.closeSerial] else []) } := by
  simp [close, hd, htr]

/-- Characterisation of a successful `close` from the tracking state: TSTOP
is sent first. -/
theorem close_tracking (o : Oracle) (s : NDITracker) (k : Nat) (d : Nat)
    (hd : s.device = some d) (htr : s.state = some "tracking")
    (he : o.errReg (k + 1) = NDI_OKAY) :
    close o s k =
      { res := Except.ok (),
        st := { s with state := some "ready", device := none },
        trace := Eff.cmd "TSTOP:" ::
          ((if s.tracker_type = some "vega" then [Eff.closeNetwork] else []) ++
           (if s.tracker_type = some "aurora" ∨ s.tracker_type = some "polaris"
            then [Eff.closeSerial] else [])) } := by
  simp [close, hd, htr, stop_tracking, check_for_errors, he]

/-- C3: the device handle is present whenever the abstract lifecycle state
is not Disconnected, and a successful `close` takes any connected state to
Disconnected, sending TSTOP first when the state was Tracking. -/
theorem claim_c3_lifecycle_invariant :
    (∀ s : NDITracker,
      lifecycleState s ≠ TrackingState.disconnected → s.device.isSome = true) ∧
    (∀ (o : Oracle) (s : NDITracker) (k : Nat) (d : Nat),
      s.device = some d →
      (s.state = some "tracking" → o.errReg (k + 1) = NDI_OKAY) →
      (close o s k).res = Except.ok () ∧
      (close o s k).st.device = none ∧
      lifecycleState (close o s k).st = TrackingState.disconnected ∧
      (s.state = some "tracking" →
        (close o s k).trace.head? = some (Eff.cmd "TSTOP:"))) := by
  constructor
  · intro s h
    cases hd : s.device with
    | none => exact absurd (by simp [lifecycleState, hd]) h
    | some d => simp
  · intro o s k d hd herr
    by_cases htr : s.state = some "tracking"
    · rw [close_tracking o s k d hd htr (herr htr)]
      refine ⟨rfl, rfl, ?_, fun _ => rfl⟩
      simp [lifecycleState]
    · rw [close_not_tracking o s k d hd htr]
      refine ⟨rfl, rfl, ?_, fun h => absurd h htr⟩
      simp [lifecycleState]

/-- Witness for C3 at a tracking vega instance with an all-OK oracle. -/
theorem claim_c3_lifecycle_invariant_witness :
    vegaState.device.isSome = true ∧
    ((close oracleOk vegaTracking 0).res = Except.ok () ∧
     (close oracleOk vegaTracking 0).st.device = none ∧
     lifecycleState (close oracleOk vegaTracking 0).st =
       TrackingState.disconnected ∧
     (vegaTracking.state = some "tracking" →
       (close oracleOk vegaTracking 0).trace.head? =
         some (Eff.cmd "TSTOP:"))) :=
  ⟨claim_c3_lifecycle_invariant.1 vegaState (by decide),
   claim_c3_lifecycle_invariant.2 oracleOk vegaTracking 0 2 rfl (fun _ => rfl)⟩

/-- C4: for a dummy (simulated) configuration, acquire touches no
collaborator, returns one row per configured tool, and every cell except
the timestamp column keeps the not-a-number sentinel. -/
theorem claim_c4_dummy_acquire (o : Oracle) (s : NDITracker)
    (hd : s.tracker_type = some "dummy") :
    (get_frame o s).2 = [] ∧
    (get_frame o s).1.length = s.tool_descriptors.length ∧
    ∀ row ∈ (get_frame o s).1,
      row = Cell.nan :: Cell.val o.time :: List.replicate 9 Cell.nan := by
  have key : (get_frame o s).1 =
      List.replicate s.tool_descriptors.length (dummyRow o.time) ∧
      (get_frame o s).2 = [] := by
    by_cases hb : s.use_bx_transforms = some true <;>
      constructor <;> simp [get_frame, get_frame_bx, get_frame_gx, hd, hb]
  refine ⟨key.2, ?_, ?_⟩
  · rw [key.1]; simp
  · intro row hrow
    rw [key.1] at hrow
    rw [(List.mem_replicate.mp hrow).2]
    rfl

/-- Witness for C4 at a concrete dummy instance with two tools. -/
theorem claim_c4_dummy_acquire_witness :
    (get_frame oracleOk dummyState).2 = [] ∧
    (get_frame oracleOk dummyState).1.length =
      dummyState.tool_descriptors.length ∧
    ∀ row ∈ (get_frame oracleOk dummyState).1,
      row = Cell.nan :: Cell.val oracleOk.time :: List.replicate 9 Cell.nan :=
  claim_c4_dummy_acquire oracleOk dummyState rfl

/-- Extending a list at the front keeps its last element. -/
theorem getLast?_cons_of_some {α : Type} (a : α) {l : List α} {x : α}
    (h : l.getLast? = some x) : (a :: l).getLast? = some x := by
  cases l with
  | nil => simp at h
  | cons b bs => rw [List.getLast?_cons_cons]; exact h

/-- Counterexample to C5 as stated: on the vega (network) variant the
error check still tears down with the serial close call, not the network
close that `close` itself uses for this variant. -/
theorem claim_c5_counterexample :
    (enable_tools oracleErr vegaState 0).res =
      Except.error (Err.ioError
        "error when Enabling port handle 6.. the error was: etext") ∧
    Eff.closeSerial ∈ (enable_tools oracleErr vegaState 0).trace ∧
    Eff.closeNetwork ∉ (enable_tools oracleErr vegaState 0).trace ∧
    (close oracleOk vegaState 0).trace = [Eff.closeNetwork] := by
  refine ⟨rfl, ?_, ?_, rfl⟩ <;> decide

/-- C5 (amended): whenever the error register reads non-OK after a command,
the error check closes the device with the serial close call regardless of
connection variant before raising, and the raised error message carries the
supplied context string and the device's own error text; an error aborts
the remaining per-tool enable steps and any subsequent phase. -/
theorem claim_c5_error_check_closes :
    (∀ (o : Oracle) (msg : String) (k : Nat), o.errReg k ≠ NDI_OKAY →
      check_for_errors o msg k =
        (Except.error (Err.ioError
          ("error when " ++ msg ++ ". the error was: " ++
            o.errorString (o.errReg k))),
         [Eff.closeSerial])) ∧
    (∀ (o : Oracle) (k : Nat) (ts : List ToolDescriptor) (e : Err),
      (enableLoop o k ts).1 = Except.error e →
      (enableLoop o k ts).2.getLast? = some Eff.closeSerial) ∧
    (∀ (a : Step) (k : Nat) (f : NDITracker → Nat → Step) (e : Err),
      a.res = Except.error e → a.seq k f = a) := by
  refine ⟨?_, ?_, ?_⟩
  · intro o msg k h
    simp [check_for_errors, h]
  · intro o k ts
    induction ts generalizing k with
    | nil => intro e h; simp [enableLoop] at h
    | cons t ts ih =>
      intro e h
      by_cases hok : o.errReg (k + 1) = NDI_OKAY
      · rw [enableLoop] at h ⊢
        simp only [check_for_errors, hok, if_pos] at h ⊢
        exact getLast?_cons_of_some _ (ih (k + 1) e h)
      · rw [enableLoop]
        simp only [check_for_errors, hok, if_neg, if_false]
        rfl
  · intro a k f e h
    simp [Step.seq, h]

/-- Witness for C5 (amended) at the concrete failing vega instance. -/
theorem claim_c5_error_check_closes_witness :
    check_for_errors oracleErr "Enabling port handle 6." 1 =
      (Except.error (Err.ioError
        ("error when " ++ "Enabling port handle 6." ++ ". the error was: " ++
          oracleErr.errorString (oracleErr.errReg 1))),
       [Eff.closeSerial]) ∧
    (enableLoop oracleErr 1 [vegaTool]).2.getLast? = some Eff.closeSerial :=
  ⟨claim_c5_error_check_closes.1 oracleErr "Enabling port handle 6." 1 (by decide),
   claim_c5_error_check_closes.2.1 oracleErr 1 [vegaTool]
     (Err.ioError "error when Enabling port handle 6.. the error was: etext") rfl⟩

/-- An oracle whose serial candidates all have names but none responds to
the probe. -/
def oracleProbeFail : Oracle := { oracleOk with probeRes := fun _ => 1 }

/-- C6 evaluated at the failing input: with auto-probe configured and no
candidate port yielding a device name, the probe loop never binds the
`result` local, so the exhaustion check raises Python's unbound-local error
instead of the documented remediation-hint error; when at least one
candidate has a name but none responds, the remediation-hint error is
raised as documented. -/
theorem claim_c6_autoprobe_unbound_local :
    (connect_serial oracleNoPorts serialAutoState 0).res =
      Except.error Err.nameError ∧
    (connect_serial oracleNoPorts serialAutoState 0).trace =
      [Eff.devName (some 0), Eff.devName (some 1), Eff.devName (some 2)] ∧
    (connect_serial oracleProbeFail serialAutoState 0).res =
      Except.error (Err.ioError (serialHints (some 3))) :=
  ⟨rfl, rfl, rfl⟩

/-- C7: every configuration record missing a required field is rejected
with a configuration error (the `KeyError` / `ValueError` kinds the source
raises during validation) before any collaborator call: `connect` raises
that error and its effect trace is empty. -/
theorem claim_c7_config_validation (o : Oracle) (s : NDITracker)
    (c : Configuration)
    (hbad : c.tracker_type = none ∨
      (∃ t, c.tracker_type = some t ∧ t ≠ "vega" ∧ t ≠ "polaris" ∧
        t ≠ "aurora" ∧ t ≠ "dummy") ∨
      (c.tracker_type = some "vega" ∧ c.romfiles = none) ∨
      (c.tracker_type = some "polaris" ∧ c.romfiles = none) ∨
      (c.tracker_type = some "aurora" ∧ c.ports_to_use = none)) :
    (∃ m, (connect o s c).res = Except.error (Err.keyError m) ∨
      (connect o s c).res = Except.error (Err.valueError m)) ∧
    (connect o s c).trace = [] := by
  have hcfg : ∃ m, (configure s c).1 = Except.error (Err.keyError m) ∨
      (configure s c).1 = Except.error (Err.valueError m) := by
    rcases hbad with h | ⟨t, ht, h1, h2, h3, h4⟩ | ⟨ht, hr⟩ | ⟨ht, hr⟩ | ⟨ht, hp⟩
    · exact ⟨"Configuration must contain Tracker type",
        Or.inl (by simp [configure, h])⟩
    · exact ⟨"Supported trackers are vega, aurora, polaris, and dummy",
        Or.inr (by simp [configure, ht, h1, h2, h3, h4])⟩
    · cases hip : c.ip_address with
      | none => exact ⟨"Configuration for vega must contain ip address",
          Or.inl (by simp [configure, ht, config_vega, hip])⟩
      | some ip => exact
          ⟨"Configuration for vega and polaris must contain a list of romfiles",
           Or.inl (by simp [configure, ht, config_vega, hip, hr])⟩
    · exact ⟨"Configuration for vega and polaris must contain a list of romfiles",
        Or.inl (by simp [configure, ht, config_polaris, hr])⟩
    · exact ⟨"Configuration for aurora must contain a list of ports to use",
        Or.inl (by simp [configure, ht, config_aurora, hp])⟩
  obtain ⟨m, hm⟩ := hcfg
  unfold connect
  rcases hc : configure s c with ⟨r, s1⟩
  rw [hc] at hm
  simp only at hm
  rcases hm with hm | hm
  · rw [hm]; exact ⟨⟨m, Or.inl rfl⟩, rfl⟩
  · rw [hm]; exact ⟨⟨m, Or.inr rfl⟩, rfl⟩

/-- Witness for C7 at a configuration with no tracker type tag. -/
theorem claim_c7_config_validation_witness :
    (∃ m, (connect oracleOk NDITracker.mkNew
      { tracker_type := none, ip_address := none, port := none,
        romfiles := none, serial_port := none,
        number_of_ports_to_probe := none, ports_to_use := none }).res =
        Except.error (Err.keyError m) ∨
      (connect oracleOk NDITracker.mkNew
      { tracker_type := none, ip_address := none, port := none,
        romfiles := none, serial_port := none,
        number_of_ports_to_probe := none, ports_to_use := none }).res =
        Except.error (Err.valueError m)) ∧
    (connect oracleOk NDITracker.mkNew
      { tracker_type := none, ip_address := none, port := none,
        romfiles := none, serial_port := none,
        number_of_ports_to_probe := none, ports_to_use := none }).trace = [] :=
  claim_c7_config_validation oracleOk NDITracker.mkNew _ (Or.inl rfl)

/-- C8: `close` with no device held raises the state error and does
nothing; with a device held it stops tracking first when tracking, runs the
network teardown for vega or the serial teardown for aurora and polaris,
and clears the handle. -/
theorem claim_c8_close_behaviour :
    (∀ (o : Oracle) (s : NDITracker) (k : Nat), s.device = none →
      (close o s k).res =
        Except.error (Err.valueError "close called with no NDI device") ∧
      (close o s k).st = s ∧ (close o s k).trace = []) ∧
    (∀ (o : Oracle) (s : NDITracker) (k : Nat) (d : Nat),
      s.device = some d →
      (s.state = some "tracking" → o.errReg (k + 1) = NDI_OKAY) →
      (close o s k).res = Except.ok () ∧
      (close o s k).st.device = none ∧
      (s.state = some "tracking" →
        (close o s k).trace.head? = some (Eff.cmd "TSTOP:")) ∧
      (s.tracker_type = some "vega" →
        Eff.closeNetwork ∈ (close o s k).trace) ∧
      ((s.tracker_type = some "aurora" ∨ s.tracker_type = some "polaris") →
        Eff.closeSerial ∈ (close o s k).trace)) := by
  constructor
  · intro o s k hd
    refine ⟨?_, ?_, ?_⟩ <;> simp [close, hd]
  · intro o s k d hd herr
    by_cases htr : s.state = some "tracking"
    · rw [close_tracking o s k d hd htr (herr htr)]
      refine ⟨rfl, rfl, fun _ => rfl, ?_, ?_⟩
      · intro hv; simp [hv]
      · intro hap; rcases hap with h | h <;> simp [h]
    · rw [close_not_tracking o s k d hd htr]
      refine ⟨rfl, rfl, fun h => absurd h htr, ?_, ?_⟩
      · intro hv; simp [hv]
      · intro hap; rcases hap with h | h <;> simp [h]

/-- Witness for C8: the empty instance raises, and the tracking vega
instance is torn down over the network transport. -/
theorem claim_c8_close_behaviour_witness :
    ((close oracleOk NDITracker.mkNew 0).res =
      Except.error (Err.valueError "close called with no NDI device") ∧
     (close oracleOk NDITracker.mkNew 0).st = NDITracker.mkNew ∧
     (close oracleOk NDITracker.mkNew 0).trace = []) ∧
    ((close oracleOk vegaTracking 0).res = Except.ok () ∧
     (close oracleOk vegaTracking 0).st.device = none ∧
     (vegaTracking.state = some "tracking" →
       (close oracleOk vegaTracking 0).trace.head? =
         some (Eff.cmd "TSTOP:")) ∧
     (vegaTracking.tracker_type = some "vega" →
       Eff.closeNetwork ∈ (close oracleOk vegaTracking 0).trace) ∧
     ((vegaTracking.tracker_type = some "aurora" ∨
       vegaTracking.tracker_type = some "polaris") →
       Eff.closeSerial ∈ (close oracleOk vegaTracking 0).trace)) :=
  ⟨claim_c8_close_behaviour.1 oracleOk NDITracker.mkNew 0 rfl,
   claim_c8_close_behaviour.2 oracleOk vegaTracking 0 2 rfl (fun _ => rfl)⟩

/-- C9: a MISSING or DISABLED transform reply leaves the 8-cell pose block
of that tool's row at the not-a-number sentinel, while the port handle,
host timestamp and device frame counter cells are still written. -/
theorem claim_c9_missing_disabled_rows (o : Oracle) (ts : Int)
    (t : ToolDescriptor) :
    ((o.bxTransform t.cstrPortHandle = TransformReply.missing ∨
      o.bxTransform t.cstrPortHandle = TransformReply.disabled) →
      bxRow o ts t = cellOfHandle t.portHandle :: Cell.val ts ::
        Cell.val (o.bxFrame t.cstrPortHandle) :: List.replicate 8 Cell.nan) ∧
    ((o.gxTransform t.cstrPortHandle = TransformReply.missing ∨
      o.gxTransform t.cstrPortHandle = TransformReply.disabled) →
      gxRow o ts t = cellOfHandle t.portHandle :: Cell.val ts ::
        Cell.val (o.gxFrame t.cstrPortHandle) :: List.replicate 8 Cell.nan) ∧
    (∀ h : Nat, t.portHandle = some h →
      (bxRow o ts t)[0]? = some (Cell.val h) ∧
      (gxRow o ts t)[0]? = some (Cell.val h) ∧
      (bxRow o ts t)[1]? = some (Cell.val ts) ∧
      (gxRow o ts t)[1]? = some (Cell.val ts) ∧
      (bxRow o ts t)[2]? = some (Cell.val (o.bxFrame t.cstrPortHandle)) ∧
      (gxRow o ts t)[2]? = some (Cell.val (o.gxFrame t.cstrPortHandle))) := by
  refine ⟨?_, ?_, ?_⟩
  · rintro (h | h) <;> simp [bxRow, poseBlock, h]
  · rintro (h | h) <;> simp [gxRow, poseBlock, h]
  · intro h hh
    refine ⟨?_, ?_, ?_, ?_, ?_, ?_⟩ <;> simp [bxRow, gxRow, cellOfHandle, hh]

/-- Witness for C9 at the concrete vega tool whose BX reply is MISSING. -/
theorem claim_c9_missing_disabled_rows_witness :
    bxRow oracleOk 42 vegaTool = cellOfHandle vegaTool.portHandle ::
      Cell.val 42 :: Cell.val (oracleOk.bxFrame vegaTool.cstrPortHandle) ::
      List.replicate 8 Cell.nan ∧
    (bxRow oracleOk 42 vegaTool)[0]? = some (Cell.val 6) :=
  ⟨(claim_c9_missing_disabled_rows oracleOk 42 vegaTool).1 (Or.inl rfl),
   ((claim_c9_missing_disabled_rows oracleOk 42 vegaTool).2.2 6 rfl).1⟩

/-- The frame table always has one row per configured tool. -/
theorem get_frame_length (o : Oracle) (s : NDITracker) :
    (get_frame o s).1.length = s.tool_descriptors.length := by
  by_cases hb : s.use_bx_transforms = some true <;>
    by_cases hd : s.tracker_type = some "dummy" <;>
    simp [get_frame, get_frame_bx, get_frame_gx, hb, hd]

/-- Every path through `_configure` only ever appends to the existing tool
descriptor list. -/
theorem configure_appends (s : NDITracker) (c : Configuration) :
    ∃ new, (configure s c).2.tool_descriptors = s.tool_descriptors ++ new := by
  cases ht : c.tracker_type with
  | none => exact ⟨[], by simp [configure, ht]⟩
  | some t =>
    simp only [configure, ht]
    by_cases hmem : t = "vega" ∨ t = "polaris" ∨ t = "aurora" ∨ t = "dummy"
    · rw [if_pos hmem]
      by_cases h1 : t = "vega"
      · rw [if_pos h1]
        unfold config_vega
        cases hip : c.ip_address with
        | none => exact ⟨[], by simp⟩
        | some ip =>
          cases hrom : c.romfiles with
          | none => exact ⟨[], by simp⟩
          | some files => exact ⟨files.map romTool, by simp⟩
      · rw [if_neg h1]
        by_cases h2 : t = "polaris"
        · rw [if_pos h2]
          unfold config_polaris
          cases hrom : c.romfiles with
          | none => exact ⟨[], by simp⟩
          | some files => exact ⟨files.map romTool, by simp⟩
        · rw [if_neg h2]
          by_cases h3 : t = "aurora"
          · rw [if_pos h3]
            unfold config_aurora
            cases hp : c.ports_to_use with
            | none => exact ⟨[], by simp⟩
            | some ports => exact ⟨ports.map portTool, by simp⟩
          · rw [if_neg h3]
            unfold config_dummy
            cases hrom : c.romfiles with
            | none => exact ⟨[], by simp⟩
            | some files => exact ⟨files.map romTool, by simp⟩
    · rw [if_neg hmem]
      exact ⟨[], by simp⟩

/-- A dummy `connect` succeeds purely and appends one descriptor per rom
file to the instance's existing list. -/
theorem connect_dummy_state (o : Oracle) (s : NDITracker) (c : Configuration)
    (f : List String) (ht : c.tracker_type = some "dummy")
    (hr : c.romfiles = some f) :
    (connect o s c).res = Except.ok () ∧
    (connect o s c).st.tool_descriptors = s.tool_descriptors ++ f.map romTool ∧
    (connect o s c).st.tracker_type = some "dummy" := by
  refine ⟨?_, ?_, ?_⟩ <;>
    simp [connect, configure, ht, config_dummy, hr, Step.seq, Step.seqPure,
      get_firmware_version, set_use_bx_transforms]

/-- C10: configuring never removes existing tool descriptors — `_configure`
only appends — so a second `connect` on the same instance (dummy variant
shown) leaves the union: the frame table and the description table both
have one entry per tool of both configurations. -/
theorem claim_c10_connect_appends :
    (∀ (s : NDITracker) (c : Configuration),
      ∃ new, (configure s c).2.tool_descriptors = s.tool_descriptors ++ new) ∧
    (∀ (o : Oracle) (c1 c2 : Configuration) (f1 f2 : List String),
      c1.tracker_type = some "dummy" → c1.romfiles = some f1 →
      c2.tracker_type = some "dummy" → c2.romfiles = some f2 →
      (connect o (connect o NDITracker.mkNew c1).st c2).st.tool_descriptors.length
          = f1.length + f2.length ∧
      (get_frame o (connect o (connect o NDITracker.mkNew c1).st c2).st).1.length
          = f1.length + f2.length ∧
      (get_tool_descriptions
          (connect o (connect o NDITracker.mkNew c1).st c2).st).length
          = f1.length + f2.length) := by
  refine ⟨fun s c => configure_appends s c, ?_⟩
  intro o c1 c2 f1 f2 ht1 hr1 ht2 hr2
  have h1 := connect_dummy_state o NDITracker.mkNew c1 f1 ht1 hr1
  have h2 := connect_dummy_state o (connect o NDITracker.mkNew c1).st c2 f2
    ht2 hr2
  have hlen : (connect o (connect o NDITracker.mkNew c1).st c2).st.tool_descriptors.length
      = f1.length + f2.length := by
    rw [h2.2.1, h1.2.1]
    simp [NDITracker.mkNew]
  refine ⟨hlen, ?_, ?_⟩
  · rw [get_frame_length, hlen]
  · simp only [get_tool_descriptions, List.length_map, List.enum_length]
    exact hlen

/-- A concrete dummy configuration with one rom file. -/
def cDummyA : Configuration :=
  { tracker_type := some "dummy", ip_address := none, port := none,
    romfiles := some ["a.rom"], serial_port := none,
    number_of_ports_to_probe := none, ports_to_use := none }

/-- A concrete dummy configuration with two rom files. -/
def cDummyB : Configuration :=
  { tracker_type := some "dummy", ip_address := none, port := none,
    romfiles := some ["b.rom", "c.rom"], serial_port := none,
    number_of_ports_to_probe := none, ports_to_use := none }

/-- Witness for C10: connecting with one and then two rom files leaves
three tools everywhere. -/
theorem claim_c10_connect_appends_witness :
    (∃ new, (configure vegaState cDummyA).2.tool_descriptors =
      vegaState.tool_descriptors ++ new) ∧
    (connect oracleOk (connect oracleOk NDITracker.mkNew cDummyA).st cDummyB).st.tool_descriptors.length
        = (["a.rom"] : List String).length + (["b.rom", "c.rom"] : List String).length ∧
    (get_frame oracleOk
        (connect oracleOk (connect oracleOk NDITracker.mkNew cDummyA).st cDummyB).st).1.length
        = (["a.rom"] : List String).length + (["b.rom", "c.rom"] : List String).length ∧
    (get_tool_descriptions
        (connect oracleOk (connect oracleOk NDITracker.mkNew cDummyA).st cDummyB).st).length
        = (["a.rom"] : List String).length + (["b.rom", "c.rom"] : List String).length :=
  ⟨claim_c10_connect_appends.1 vegaState cDummyA,
   claim_c10_connect_appends.2 oracleOk cDummyA cDummyB ["a.rom"]
     ["b.rom", "c.rom"] rfl rfl rfl rfl⟩
